import Mathlib

/-!
Verification of the pixivo photo-sharing application.

This file gives a shallow embedding of the server route handlers
(`routes/posts.js` and its later revisions) and of the client scripts
(`public/javascripts/postscript.js` and its later revision), and settles
the behavioural properties stated in the specification.

Conventions of the embedding:
* MongoDB ObjectIds are modelled as `Nat`.
* Mongoose arrays (`likes`, `followers`, `following`, `comments`) are `List`s;
  `array.pull x` removes every occurrence of `x`, `array.push x` appends,
  `$addToSet` appends only when absent, matching the driver semantics.
* JavaScript `x || d` on numbers (`0` and `NaN` are falsy) is modelled
  explicitly; a failed `parseInt` is `none`.
* Pixel heights measured by the client are rationals; `Math.ceil` is `Int.ceil`.
-/

namespace Pixivo

/-- JS `parseInt(x) || d` for nonnegative values: a failed parse (`none`)
or a parsed `0` (falsy) falls back to the default `d`. -/
def jsOrNat (v : Option Nat) (d : Nat) : Nat :=
  match v with
  | none => d
  | some n => if n = 0 then d else n

/-- JS `parseInt(x, 10) || d` for integer values, `none` = failed parse. -/
def jsOrIntOpt (v : Option Int) (d : Int) : Int :=
  match v with
  | none => d
  | some n => if n = 0 then d else n

/-- JS `n || d` on a number already at hand (`0` is falsy). -/
def jsOrInt (v d : Int) : Int := if v = 0 then d else v

/-!
## Like endpoint (`router.post('/posts/:id/like')`, routes/posts.js:215-238)

```js
const alreadyLiked = post.likes.includes(userId);
if (alreadyLiked) post.likes.pull(userId); else post.likes.push(userId);
await post.save();
res.json({ success: true, liked: !alreadyLiked, likesCount: post.likes.length });
```
-/

/-- Mongoose `array.pull(x)`: removes every occurrence of `x`. -/
def pull (l : List Nat) (x : Nat) : List Nat := l.filter (fun y => y != x)

/-- The JSON body returned by the like route on a found post. -/
structure LikeRouteResp where
  success : Bool
  liked : Bool
  likesCount : Nat
  deriving DecidableEq

/-- The like route handler on a found post: returns the saved `likes` array
and the JSON response body. -/
def likeRoute (likes : List Nat) (userId : Nat) : List Nat × LikeRouteResp :=
  let alreadyLiked : Bool := decide (userId ∈ likes)
  let newLikes := if alreadyLiked then pull likes userId else likes ++ [userId]
  (newLikes, { success := true, liked := !alreadyLiked, likesCount := newLikes.length })

/-!
## Pagination (`getPagination`, routes/posts.js:108-119)

```js
const page = parseInt(query.page) || 1;
const limit = parseInt(query.limit) || 100;
const totalPages = Math.ceil(total / limit);
return { page, limit, skip: (page - 1) * limit, totalPages,
         hasNextPage: page < totalPages };
```
-/

structure Pagination where
  page : Nat
  limit : Nat
  skip : Nat
  totalPages : Nat
  hasNextPage : Bool
  deriving DecidableEq

/-- `getPagination(query, total)`.  `Math.ceil(total / limit)` on naturals with
`limit > 0` (guaranteed by the `|| 100` fallback) equals
`(total + limit - 1) / limit`; theorem `natCeilDiv_cast` below proves this
agrees with the rational ceiling of the source. -/
def getPagination (queryPage queryLimit : Option Nat) (total : Nat) : Pagination :=
  let page := jsOrNat queryPage 1
  let limit := jsOrNat queryLimit 100
  let totalPages := (total + limit - 1) / limit
  { page := page
    limit := limit
    skip := (page - 1) * limit
    totalPages := totalPages
    hasNextPage := decide (page < totalPages) }

/-!
## Capped limit of `/user/:username` (part_002:470-474)

```js
const rawLimit = parseInt(req.query.limit, 10) || 20;
const MAX_LIMIT = 50;
const limit = Math.min(Math.max(1, rawLimit), MAX_LIMIT);
```
-/

def MAX_LIMIT : Nat := 50

/-- Effective page-size limit used by the `/user/:username` handler. -/
def userProfileLimit (queryLimit : Option Int) : Int :=
  min (max 1 (jsOrIntOpt queryLimit 20)) (MAX_LIMIT : Int)

/-!
## Client comment counter (postscript.js:400-493)

Optimistic increment: `cc.textContent = String((+cc.textContent || 0) + 1)`.
Rollback on every failure path:
`cc.textContent = String(Math.max(0, (+cc.textContent || 1) - 1))`.
-/

/-- Optimistic increment of the displayed comment counter. -/
def commentCountIncrement (c : Int) : Int := jsOrInt c 0 + 1

/-- Rollback decrement of the displayed comment counter, clamped at zero. -/
def commentCountRollback (c : Int) : Int := max 0 (jsOrInt c 1 - 1)

/-!
## Comment endpoint (`router.post('/posts/:id/comments')`, routes/posts.js:240-260)

```js
const text = (req.body.text || '').trim();
if (!text) return res.status(400).json({ error: 'Comment text required' });
const post = await postModel.findById(req.params.id);
if (!post) return res.status(404).json({ error: 'Post not found' });
post.comments.push({ text, user: req.user._id });
await post.save();
const newComment = populated.comments[populated.comments.length - 1];
res.json({ success: true, comment: newComment });
```
-/

/-- JS `String.prototype.trim`: strip leading and trailing whitespace.
Defined by structural recursion over the character list so that concrete
instances evaluate inside the kernel. -/
def jsTrim (s : String) : String :=
  ⟨((s.data.dropWhile Char.isWhitespace).reverse.dropWhile Char.isWhitespace).reverse⟩

/-- An embedded comment sub-document: trimmed text plus authoring user id. -/
structure Comment where
  text : String
  user : Nat
  deriving DecidableEq

/-- Response of the comment route: a 400 error body or the success envelope
carrying the new comment. -/
inductive CommentsResp where
  | error (status : Nat) (msg : String)
  | success (comment : Comment)
  deriving DecidableEq

/-- The comment route handler on an existing post: returns the saved
`comments` array and the response. -/
def commentsRoute (comments : List Comment) (userId : Nat) (rawText : Option String) :
    List Comment × CommentsResp :=
  let text := jsTrim (rawText.getD "")
  if text = "" then (comments, .error 400 "Comment text required")
  else (comments ++ [{ text := text, user := userId }],
        .success { text := text, user := userId })

/-!
## Client like-click handler (`handleLikeClick`, postscript.js:39-98)

Models the continuation of `handleLikeClick` after the fetch settles with a
response: the UI state read before the click (`prev`), the optimistic guess,
and the reconciliation/rollback branches keyed on status, content type and
parsed body.
-/

/-- Client-side UI state of one like button: pressed flag plus counter. -/
structure LikeUI where
  liked : Bool
  count : Int
  deriving DecidableEq

/-- A parsed JSON body of the like endpoint as seen by the client. -/
structure LikeBody where
  success : Bool
  liked : Bool
  likesCount : Option Int
  error : Option String
  deriving DecidableEq

/-- A settled HTTP response as observed by the client: status, whether the
content type includes `application/json`, and the parsed body
(`none` = JSON parsing failed). -/
structure ServerResp where
  status : Nat
  ctJson : Bool
  body : Option LikeBody
  deriving DecidableEq

/-- The toast messages the like handler can surface. -/
inductive ClientMsg where
  | loginRequired
  | genericFail
  | serverReported (msg : String)
  | networkFail
  deriving DecidableEq

/-- Optimistic next UI state: flip the flag; count + 1 when turning on,
count - 1 clamped at 0 when turning off. -/
def optimisticLikeUI (ui : LikeUI) : LikeUI :=
  { liked := !ui.liked
    count := if ui.liked then max 0 (ui.count - 1) else ui.count + 1 }

/-- `res.ok`: status in the 2xx range. -/
def respOk (status : Nat) : Bool := decide (200 ≤ status) && decide (status < 300)

/-- Outcome of one like click: final UI state and the message shown, if any. -/
structure LikeClickResult where
  ui : LikeUI
  msg : Option ClientMsg
  deriving DecidableEq

/-- Reconciliation of `handleLikeClick` once the response has settled,
given the pre-click UI state `prev`. -/
def handleLikeResponse (prev : LikeUI) (resp : ServerResp) : LikeClickResult :=
  let optimistic := optimisticLikeUI prev
  if resp.status = 401 then
    { ui := prev, msg := some .loginRequired }
  else if !respOk resp.status || !resp.ctJson then
    { ui := prev, msg := some .genericFail }
  else
    match resp.body with
    | none => { ui := prev, msg := some (.serverReported "Failed to update like") }
    | some b =>
      if !b.success then
        { ui := prev
          msg := some (.serverReported (match b.error with
            | some e => if e = "" then "Failed to update like" else e
            | none => "Failed to update like")) }
      else
        { ui := { liked := b.liked, count := b.likesCount.getD optimistic.count }
          msg := none }

/-!
## Masonry layout engine (`resizeMasonryGrid`, postscript.js:142-156)

```js
const rowSpan = Math.max(1, Math.ceil((height + rowGap) / (rowHeight + rowGap)));
item.style.gridRowEnd = 'span ' + rowSpan;
```
-/

/-- A grid child: measured content height and currently assigned row span. -/
structure MasonryItem where
  height : ℚ
  span : ℤ
  deriving DecidableEq

/-- Row span assigned from a measured content height. -/
def rowSpan (rowHeight rowGap height : ℚ) : ℤ :=
  max 1 ⌈(height + rowGap) / (rowHeight + rowGap)⌉

/-- One pass of the masonry engine over the grid children. -/
def resizeMasonryGrid (rowHeight rowGap : ℚ) (items : List MasonryItem) :
    List MasonryItem :=
  items.map fun it => { it with span := rowSpan rowHeight rowGap it.height }

/-!
## Pending-like guard (part_000:19-34 and `handleLikeAction`, part_000:51-102)

`pendingLikes` maps a post id to its in-flight request; `postLikeRequest`
rejects with a `'pending'` error when an entry for the id already exists, and
removes the entry when the request settles.  `handleLikeAction` returns at
once when the button is disabled, otherwise applies the optimistic UI state,
disables the button, issues the request, reconciles or rolls back when it
settles (a `'pending'` rejection is silently ignored), and re-enables the
button in its final step.  The state below tracks one post id.
-/

/-- Client state for one post's like control: the button's disabled flag, the
pending-set membership for this post id, the current and the click-time UI
state, and counters of issued network requests and shown toasts. -/
structure LikeClient where
  disabled : Bool
  inFlight : Bool
  ui : LikeUI
  saved : LikeUI
  requests : Nat
  toasts : Nat
  deriving DecidableEq

/-- Events of the like control: a user click, the settlement of the in-flight
request with a response, or its settlement with a network failure. -/
inductive LikeEvent where
  | click
  | settled (resp : ServerResp)
  | netFail
  deriving DecidableEq

/-- One step of the like control, following `handleLikeAction`:
* `click` with the button disabled returns immediately;
* `click` while a request is pending (unreachable while disabled tracks
  pending) applies the optimistic state, and `postLikeRequest` rejects with
  `'pending'`, which the catch ignores and the final step re-enables;
* `click` otherwise applies the optimistic state, disables the button and
  issues the request;
* settlement reconciles or rolls back against the click-time state, counts a
  toast when a message is shown, removes the pending entry and re-enables. -/
def likeStep (s : LikeClient) : LikeEvent → LikeClient
  | .click =>
    if s.disabled then s
    else if s.inFlight then
      { s with ui := optimisticLikeUI s.ui, disabled := false }
    else
      { s with saved := s.ui, ui := optimisticLikeUI s.ui, disabled := true
               inFlight := true, requests := s.requests + 1 }
  | .settled resp =>
    if s.inFlight then
      let r := handleLikeResponse s.saved resp
      { s with ui := r.ui
               toasts := s.toasts + (if r.msg.isSome then 1 else 0)
               inFlight := false, disabled := false }
    else s
  | .netFail =>
    if s.inFlight then
      { s with ui := s.saved, toasts := s.toasts + 1
               inFlight := false, disabled := false }
    else s

/-- Page-load state of a like control showing UI state `ui0`. -/
def initLikeClient (ui0 : LikeUI) : LikeClient :=
  { disabled := false, inFlight := false, ui := ui0, saved := ui0
    requests := 0, toasts := 0 }

/-- The like control after processing a sequence of events from page load. -/
def likeRun (ui0 : LikeUI) (evs : List LikeEvent) : LikeClient :=
  evs.foldl likeStep (initLikeClient ui0)

/-!
## Follow endpoint (`router.post('/users/:username/follow')`, routes/posts.js:468-506)

```js
if (req.user.username === targetUsername)
  return res.status(400).json({ error: 'Cannot follow yourself' });
const alreadyFollowing = target.followers.includes(userId);
if (alreadyFollowing) {
  ... { $pull: { followers: userId } } ... { $pull: { following: target._id } }
} else {
  ... { $addToSet: { followers: userId } } ... { $addToSet: { following: target._id } }
}
res.json({ success: true, following: !alreadyFollowing,
           followersCount: updatedTarget.followers.length });
```
-/

/-- MongoDB `$addToSet`: append only when absent. -/
def addToSet (l : List Nat) (x : Nat) : List Nat := if x ∈ l then l else l ++ [x]

/-- The slice of the user store touched by the follow route: the target's
followers array and the requesting user's following array. -/
structure FollowState where
  targetFollowers : List Nat
  userFollowing : List Nat
  deriving DecidableEq

/-- JSON body of the follow route's response. -/
inductive FollowBody where
  | error (msg : String)
  | ok (following : Bool) (followersCount : Nat)
  deriving DecidableEq

/-- Status plus body of the follow route's response. -/
structure FollowResp where
  status : Nat
  body : FollowBody
  deriving DecidableEq

/-- The follow route handler for an authenticated user `meId` named
`meUsername` targeting the existing user `targetId` named `targetUsername`. -/
def followRoute (meUsername targetUsername : String) (meId targetId : Nat)
    (db : FollowState) : FollowState × FollowResp :=
  if meUsername = targetUsername then
    (db, ⟨400, .error "Cannot follow yourself"⟩)
  else
    let alreadyFollowing : Bool := decide (meId ∈ db.targetFollowers)
    if alreadyFollowing then
      let db' : FollowState :=
        { targetFollowers := pull db.targetFollowers meId
          userFollowing := pull db.userFollowing targetId }
      (db', ⟨200, .ok false db'.targetFollowers.length⟩)
    else
      let db' : FollowState :=
        { targetFollowers := addToSet db.targetFollowers meId
          userFollowing := addToSet db.userFollowing targetId }
      (db', ⟨200, .ok true db'.targetFollowers.length⟩)

/-!
## Response shapes of the mutation endpoints

Per-endpoint outcome-to-response maps for the envelope discipline of spec
section 6.  The unauthenticated outcome is the programmatic (AJAX) branch of
`isLoggedIn`; browser navigations are redirected instead.
-/

/-- Shape of a response body sent by a handler. -/
inductive RespBody where
  | jsonSuccess
  | jsonError (msg : String)
  | plainText (msg : String)
  | redirect (loc : String)
  deriving DecidableEq

/-- Status plus body shape of a handler response. -/
structure EndpointResp where
  status : Nat
  body : RespBody
  deriving DecidableEq

/-- Whether a body is a JSON envelope, i.e. a success or error JSON object. -/
def isJsonEnvelope : RespBody → Bool
  | .jsonSuccess => true
  | .jsonError _ => true
  | _ => false

/-- Outcomes of the like endpoint. -/
inductive LikeOutcome where
  | noAuth | postMissing | toggled | serverFailed
  deriving DecidableEq, Fintype

/-- Responses of `router.post('/posts/:id/like')` (routes/posts.js:215-238). -/
def likeEndpointResp : LikeOutcome → EndpointResp
  | .noAuth => ⟨401, .jsonError "Not authenticated"⟩
  | .postMissing => ⟨404, .jsonError "Post not found"⟩
  | .toggled => ⟨200, .jsonSuccess⟩
  | .serverFailed => ⟨500, .jsonError "Server error"⟩

/-- Outcomes of the comment endpoint. -/
inductive CommentOutcome where
  | noAuth | postMissing | emptyText | added | serverFailed
  deriving DecidableEq, Fintype

/-- Responses of `router.post('/posts/:id/comments')` (routes/posts.js:240-260). -/
def commentEndpointResp : CommentOutcome → EndpointResp
  | .noAuth => ⟨401, .jsonError "Not authenticated"⟩
  | .postMissing => ⟨404, .jsonError "Post not found"⟩
  | .emptyText => ⟨400, .jsonError "Comment text required"⟩
  | .added => ⟨200, .jsonSuccess⟩
  | .serverFailed => ⟨500, .jsonError "Server error"⟩

/-- Outcomes of the follow endpoint. -/
inductive FollowOutcome where
  | noAuth | selfFollow | userMissing | toggledOn | toggledOff | serverFailed
  deriving DecidableEq, Fintype

/-- Responses of `router.post('/users/:username/follow')` (routes/posts.js:468-506). -/
def followEndpointResp : FollowOutcome → EndpointResp
  | .noAuth => ⟨401, .jsonError "Not authenticated"⟩
  | .selfFollow => ⟨400, .jsonError "Cannot follow yourself"⟩
  | .userMissing => ⟨404, .jsonError "User not found"⟩
  | .toggledOn => ⟨200, .jsonSuccess⟩
  | .toggledOff => ⟨200, .jsonSuccess⟩
  | .serverFailed => ⟨500, .jsonError "Server error"⟩

/-- Outcomes of the post-upload endpoint. -/
inductive UploadOutcome where
  | noAuth | noFile | created | serverFailed
  deriving DecidableEq, Fintype

/-- Responses of `router.post('/upload')` (routes/posts.js:334-360):
`if (!req.file) return res.status(400).send('No file provided');`, a redirect
to `/profile` on success, and a flash message plus redirect on failure. -/
def uploadEndpointResp : UploadOutcome → EndpointResp
  | .noAuth => ⟨401, .jsonError "Not authenticated"⟩
  | .noFile => ⟨400, .plainText "No file provided"⟩
  | .created => ⟨302, .redirect "/profile"⟩
  | .serverFailed => ⟨302, .redirect "/profile"⟩

/-! ## Helper lemmas -/

/-- `(t + l - 1) / l` on naturals is the rational ceiling of `t / l`. -/
theorem natCeilDiv_cast (t l : ℕ) (hl : 0 < l) :
    (((t + l - 1) / l : ℕ) : ℤ) = ⌈(t : ℚ) / (l : ℚ)⌉ := by
  have hq := Nat.div_add_mod (t + l - 1) l
  have hr := Nat.mod_lt (t + l - 1) hl
  set q := (t + l - 1) / l with hqd
  set r := (t + l - 1) % l with hrd
  have key : (l : ℤ) * q + r = (t : ℤ) + l - 1 := by
    have h1 : ((t + l - 1 : ℕ) : ℤ) = (t : ℤ) + l - 1 := by
      have : (1 : ℕ) ≤ t + l := by omega
      push_cast [Nat.cast_sub this]
      ring
    rw [← h1]
    exact_mod_cast hq
  have hrz : (r : ℤ) < l := by exact_mod_cast hr
  have hrz0 : (0 : ℤ) ≤ r := Int.natCast_nonneg r
  have hlq : (0 : ℚ) < (l : ℚ) := by exact_mod_cast hl
  rw [eq_comm, Int.ceil_eq_iff]
  constructor
  · rw [sub_lt_iff_lt_add, div_add' _ _ _ (ne_of_gt hlq), lt_div_iff₀ hlq]
    have hZ : ((q : ℤ)) * l < (t : ℤ) + l := by linarith
    have hQ : ((q : ℚ)) * l < (t : ℚ) + l := by exact_mod_cast hZ
    push_cast
    linarith
  · rw [div_le_iff₀ hlq]
    have hZ : (t : ℤ) ≤ (q : ℤ) * l := by linarith
    push_cast
    exact_mod_cast hZ

/-- A step of the like control keeps the button disabled whenever a request
is in flight. -/
theorem likeStep_preserves_guard (s : LikeClient) (e : LikeEvent)
    (h : s.inFlight = true → s.disabled = true) :
    (likeStep s e).inFlight = true → (likeStep s e).disabled = true := by
  cases e with
  | click =>
    by_cases hd : s.disabled = true
    · simp [likeStep, hd]
    · have hf : s.inFlight = false := by
        cases hv : s.inFlight
        · rfl
        · exact absurd (h hv) hd
      simp [likeStep, hd, hf]
  | settled resp =>
    by_cases hf : s.inFlight = true
    · simp [likeStep, hf]
    · simp [likeStep, hf]
  | netFail =>
    by_cases hf : s.inFlight = true
    · simp [likeStep, hf]
    · simp [likeStep, hf]

/-- In every reachable state of the like control, the button is disabled
while a request is in flight. -/
theorem likeRun_guard (ui0 : LikeUI) (evs : List LikeEvent) :
    (likeRun ui0 evs).inFlight = true → (likeRun ui0 evs).disabled = true := by
  suffices H : ∀ (l : List LikeEvent) (s : LikeClient),
      (s.inFlight = true → s.disabled = true) →
      ((l.foldl likeStep s).inFlight = true → (l.foldl likeStep s).disabled = true) by
    exact H evs (initLikeClient ui0) (by simp [initLikeClient])
  intro l
  induction l with
  | nil => intro s hs; simpa using hs
  | cons e rest ih =>
    intro s hs
    exact ih (likeStep s e) (likeStep_preserves_guard s e hs)

/-- `x` is a member of `addToSet l x`. -/
theorem mem_addToSet_self (l : List Nat) (x : Nat) : x ∈ addToSet l x := by
  unfold addToSet
  split
  · assumption
  · simp

/-- `$addToSet` preserves freedom from duplicates. -/
theorem addToSet_nodup (l : List Nat) (x : Nat) (h : l.Nodup) :
    (addToSet l x).Nodup := by
  unfold addToSet
  split
  · exact h
  · next hx =>
    refine List.nodup_append.mpr ⟨h, List.nodup_singleton x, ?_⟩
    intro a ha hb
    rw [List.mem_singleton] at hb
    exact hx (hb ▸ ha)

/-- `x` is not a member of `pull l x`. -/
theorem not_mem_pull_self (l : List Nat) (x : Nat) : x ∉ pull l x := by
  unfold pull
  simp

/-! ## Claim theorems -/

/-- C1: the like endpoint toggles set membership of the user in the post's
likes, answers `success = true`, `liked` true exactly when the user was added,
`likesCount` the size of the likes array after the operation; it keeps the
likes array duplicate-free, and toggling twice restores the likes set (up to
permutation) and its count. -/
theorem like_route_toggle_spec (likes : List Nat) (u : Nat) (h : likes.Nodup) :
    (likeRoute likes u).2.success = true
    ∧ ((likeRoute likes u).2.liked = true ↔ u ∉ likes)
    ∧ (u ∈ (likeRoute likes u).1 ↔ u ∉ likes)
    ∧ (likeRoute likes u).2.likesCount = (likeRoute likes u).1.length
    ∧ (likeRoute likes u).1.Nodup
    ∧ (likeRoute (likeRoute likes u).1 u).1.Perm likes
    ∧ (likeRoute (likeRoute likes u).1 u).2.likesCount = likes.length := by
  have hpull : pull likes u = likes.erase u := (h.erase_eq_filter u).symm
  by_cases hm : u ∈ likes
  · have h1 : (likeRoute likes u).1 = likes.erase u := by
      simp [likeRoute, hm, hpull]
    have hnotin : u ∉ likes.erase u := h.not_mem_erase
    have h2 : (likeRoute (likeRoute likes u).1 u).1 = likes.erase u ++ [u] := by
      rw [h1]; simp [likeRoute, hnotin]
    have hperm : (likes.erase u ++ [u]).Perm likes :=
      (List.perm_append_singleton u _).trans (List.perm_cons_erase hm).symm
    refine ⟨rfl, ?_, ?_, ?_, ?_, ?_, ?_⟩
    · simp [likeRoute, hm]
    · rw [h1]; simp [hnotin, hm]
    · rfl
    · rw [h1]; exact h.erase u
    · rw [h2]; exact hperm
    · show (likeRoute (likeRoute likes u).1 u).1.length = likes.length
      rw [h2]; exact hperm.length_eq
  · have h1 : (likeRoute likes u).1 = likes ++ [u] := by
      simp [likeRoute, hm]
    have hfil : pull (likes ++ [u]) u = likes := by
      unfold pull
      rw [List.filter_append]
      have e1 : likes.filter (fun y => y != u) = likes :=
        List.filter_eq_self.mpr (fun a ha => by
          simp only [ne_eq, bne_iff_ne]
          exact fun he => hm (he ▸ ha))
      have e2 : ([u] : List Nat).filter (fun y => y != u) = [] := by simp
      rw [e1, e2, List.append_nil]
    have h2 : (likeRoute (likeRoute likes u).1 u).1 = likes := by
      rw [h1]
      have hin : u ∈ likes ++ [u] := by simp
      simp only [likeRoute, hin, decide_eq_true_eq, decide_True, if_true]
      exact hfil
    refine ⟨rfl, ?_, ?_, ?_, ?_, ?_, ?_⟩
    · simp [likeRoute, hm]
    · rw [h1]; simp [hm]
    · rfl
    · rw [h1]
      refine List.nodup_append.mpr ⟨h, List.nodup_singleton u, ?_⟩
      intro a ha hb
      rw [List.mem_singleton] at hb
      exact hm (hb ▸ ha)
    · rw [h2]
    · show (likeRoute (likeRoute likes u).1 u).1.length = likes.length
      rw [h2]

/-- Witness for C1 at the concrete likes array `[1, 2]` and user `2`. -/
theorem like_route_toggle_spec_witness :
    ([1, 2] : List Nat).Nodup
    ∧ ((likeRoute [1, 2] 2).2.success = true
      ∧ ((likeRoute [1, 2] 2).2.liked = true ↔ 2 ∉ ([1, 2] : List Nat))
      ∧ (2 ∈ (likeRoute [1, 2] 2).1 ↔ 2 ∉ ([1, 2] : List Nat))
      ∧ (likeRoute [1, 2] 2).2.likesCount = (likeRoute [1, 2] 2).1.length
      ∧ (likeRoute [1, 2] 2).1.Nodup
      ∧ (likeRoute (likeRoute [1, 2] 2).1 2).1.Perm [1, 2]
      ∧ (likeRoute (likeRoute [1, 2] 2).1 2).2.likesCount = ([1, 2] : List Nat).length) :=
  ⟨by decide, like_route_toggle_spec [1, 2] 2 (by decide)⟩

/-- C2: pagination computes `skip = (page - 1) * limit`,
`totalPages = ceil(total / limit)` (the rational ceiling),
`hasNextPage = (page < totalPages)`; concretely, for `total = 95` and
`limit = 20`, `totalPages = 5` and `hasNextPage` holds exactly for
pages 1 through 4. -/
theorem pagination_spec (page limit total : Nat) (hp : 0 < page) (hl : 0 < limit) :
    (getPagination (some page) (some limit) total).page = page
    ∧ (getPagination (some page) (some limit) total).limit = limit
    ∧ (getPagination (some page) (some limit) total).skip = (page - 1) * limit
    ∧ (((getPagination (some page) (some limit) total).totalPages : ℤ)
        = ⌈(total : ℚ) / (limit : ℚ)⌉)
    ∧ ((getPagination (some page) (some limit) total).hasNextPage = true
        ↔ page < (getPagination (some page) (some limit) total).totalPages)
    ∧ (∀ p : Nat, 0 < p →
        (getPagination (some p) (some 20) 95).totalPages = 5
        ∧ ((getPagination (some p) (some 20) 95).hasNextPage = true ↔ p < 5)) := by
  have hp0 : page ≠ 0 := Nat.pos_iff_ne_zero.mp hp
  have hl0 : limit ≠ 0 := Nat.pos_iff_ne_zero.mp hl
  refine ⟨?_, ?_, ?_, ?_, ?_, ?_⟩
  · simp [getPagination, jsOrNat, hp0]
  · simp [getPagination, jsOrNat, hl0]
  · simp [getPagination, jsOrNat, hp0, hl0]
  · simp only [getPagination, jsOrNat, if_neg hl0]
    exact natCeilDiv_cast total limit hl
  · simp [getPagination, jsOrNat, hp0]
  · intro p hq
    have hq0 : p ≠ 0 := Nat.pos_iff_ne_zero.mp hq
    constructor
    · simp [getPagination, jsOrNat, hq0]
    · simp [getPagination, jsOrNat, hq0]

/-- Witness for C2 at page 4, limit 20, total 95. -/
theorem pagination_spec_witness :
    0 < 4 ∧ 0 < 20
    ∧ ((getPagination (some 4) (some 20) 95).page = 4
      ∧ (getPagination (some 4) (some 20) 95).limit = 20
      ∧ (getPagination (some 4) (some 20) 95).skip = (4 - 1) * 20
      ∧ (((getPagination (some 4) (some 20) 95).totalPages : ℤ)
          = ⌈(95 : ℚ) / (20 : ℚ)⌉)
      ∧ ((getPagination (some 4) (some 20) 95).hasNextPage = true
          ↔ 4 < (getPagination (some 4) (some 20) 95).totalPages)
      ∧ (∀ p : Nat, 0 < p →
          (getPagination (some p) (some 20) 95).totalPages = 5
          ∧ ((getPagination (some p) (some 20) 95).hasNextPage = true ↔ p < 5))) :=
  ⟨by decide, by decide, pagination_spec 4 20 95 (by decide) (by decide)⟩

/-- C3 counterexample: the `getPagination` helper used by `/feed` and
`/allpins` passes the caller-supplied limit through unclamped; a request with
`?limit=51` gets effective limit 51, above the repository's only fixed cap
`MAX_LIMIT = 50`, refuting "the effective limit is bounded above by a fixed
cap" for those handlers. -/
theorem effective_limit_uncapped_cex :
    (getPagination (some 1) (some (MAX_LIMIT + 1)) 95).limit = MAX_LIMIT + 1
    ∧ ¬ ((getPagination (some 1) (some (MAX_LIMIT + 1)) 95).limit ≤ MAX_LIMIT) := by
  decide

/-- C3 (amended): only the `/user/:username` (and `/user/:username/posts`)
handlers cap the effective limit, clamping it into `[1, MAX_LIMIT]`; the
`getPagination` helper used by the other paginated handlers echoes any
positive caller-supplied limit unchanged. -/
theorem effective_limit_spec (rawLimit total : Nat) (h : 0 < rawLimit) :
    (getPagination (some 1) (some rawLimit) total).limit = rawLimit
    ∧ (∀ q : Option Int, 1 ≤ userProfileLimit q ∧ userProfileLimit q ≤ (MAX_LIMIT : Int)) := by
  constructor
  · simp [getPagination, jsOrNat, Nat.pos_iff_ne_zero.mp h]
  · intro q
    refine ⟨le_min (le_max_left _ _) (by norm_num [MAX_LIMIT]), min_le_right _ _⟩

/-- Witness for C3's amended claim at raw limit 7. -/
theorem effective_limit_spec_witness :
    0 < 7
    ∧ ((getPagination (some 1) (some 7) 0).limit = 7
      ∧ (∀ q : Option Int, 1 ≤ userProfileLimit q ∧ userProfileLimit q ≤ (MAX_LIMIT : Int))) :=
  ⟨by decide, effective_limit_spec 7 0 (by decide)⟩

/-- C4: on an existing post, a comment whose text is empty after trimming is
rejected with a 400 error body and the comment list is unchanged; non-empty
trimmed text is appended as a comment authored by the requesting user and the
success response carries that new comment. -/
theorem comments_route_spec (comments : List Comment) (uid : Nat) (rawText : Option String) :
    (jsTrim (rawText.getD "") = "" →
      commentsRoute comments uid rawText
        = (comments, .error 400 "Comment text required"))
    ∧ (jsTrim (rawText.getD "") ≠ "" →
      commentsRoute comments uid rawText
        = (comments ++ [⟨jsTrim (rawText.getD ""), uid⟩],
           .success ⟨jsTrim (rawText.getD ""), uid⟩)) := by
  constructor
  · intro h
    simp [commentsRoute, h]
  · intro h
    simp [commentsRoute, h]

/-- Witness for C4: posting text with surrounding whitespace appends the
trimmed comment. -/
theorem comments_route_spec_witness :
    jsTrim ((some "  hi  " : Option String).getD "") ≠ ""
    ∧ commentsRoute [] 7 (some "  hi  ")
        = ([⟨"hi", 7⟩], CommentsResp.success ⟨"hi", 7⟩) :=
  ⟨by decide, (comments_route_spec [] 7 (some "  hi  ")).2 (by decide)⟩

/-- C5: whenever the like endpoint answers 401, a non-2xx status, a
non-JSON content type, or an unparsable body, the client restores the UI
to its exact pre-click state and shows a message: the login-required one in
the 401 case, the generic one for non-2xx or non-JSON responses. -/
theorem like_click_rollback_spec (prev : LikeUI) (resp : ServerResp)
    (h : resp.status = 401 ∨ respOk resp.status = false ∨ resp.ctJson = false
      ∨ resp.body = none) :
    (handleLikeResponse prev resp).ui = prev
    ∧ (handleLikeResponse prev resp).msg.isSome = true
    ∧ (resp.status = 401 →
        (handleLikeResponse prev resp).msg = some .loginRequired)
    ∧ (resp.status ≠ 401 ∧ (respOk resp.status = false ∨ resp.ctJson = false) →
        (handleLikeResponse prev resp).msg = some .genericFail) := by
  by_cases h401 : resp.status = 401
  · refine ⟨?_, ?_, ?_, ?_⟩ <;> simp [handleLikeResponse, h401]
  · rcases h with h | h | h | h
    · exact absurd h h401
    · refine ⟨?_, ?_, ?_, ?_⟩ <;> simp [handleLikeResponse, h401, h]
    · refine ⟨?_, ?_, ?_, ?_⟩ <;> simp [handleLikeResponse, h401, h]
    · by_cases hok : respOk resp.status = false
      · refine ⟨?_, ?_, ?_, ?_⟩ <;> simp [handleLikeResponse, h401, hok]
      · by_cases hct : resp.ctJson = false
        · refine ⟨?_, ?_, ?_, ?_⟩ <;> simp [handleLikeResponse, h401, hct]
        · have hok' : respOk resp.status = true := by
            cases hv : respOk resp.status
            · exact absurd hv hok
            · rfl
          have hct' : resp.ctJson = true := by
            cases hv : resp.ctJson
            · exact absurd hv hct
            · rfl
          refine ⟨?_, ?_, ?_, ?_⟩ <;>
            simp [handleLikeResponse, h401, hok', hct', h]

/-- Witness for C5 at a concrete 401 response. -/
theorem like_click_rollback_spec_witness :
    ((⟨401, false, none⟩ : ServerResp).status = 401
      ∨ respOk (⟨401, false, none⟩ : ServerResp).status = false
      ∨ (⟨401, false, none⟩ : ServerResp).ctJson = false
      ∨ (⟨401, false, none⟩ : ServerResp).body = none)
    ∧ ((handleLikeResponse ⟨false, 3⟩ ⟨401, false, none⟩).ui = ⟨false, 3⟩
      ∧ (handleLikeResponse ⟨false, 3⟩ ⟨401, false, none⟩).msg.isSome = true
      ∧ ((⟨401, false, none⟩ : ServerResp).status = 401 →
          (handleLikeResponse ⟨false, 3⟩ ⟨401, false, none⟩).msg = some .loginRequired)
      ∧ ((⟨401, false, none⟩ : ServerResp).status ≠ 401
          ∧ (respOk (⟨401, false, none⟩ : ServerResp).status = false
            ∨ (⟨401, false, none⟩ : ServerResp).ctJson = false) →
          (handleLikeResponse ⟨false, 3⟩ ⟨401, false, none⟩).msg = some .genericFail)) :=
  ⟨Or.inl rfl, like_click_rollback_spec ⟨false, 3⟩ ⟨401, false, none⟩ (Or.inl rfl)⟩

/-- C9: the masonry engine assigns
`rowSpan = max(1, ceil((height + rowGap) / (rowHeight + rowGap)))`; the span
is monotone in the measured height (a strictly taller sibling gets a span at
least as large), every span is at least 1, and re-running the computation on
unchanged geometry yields identical spans. -/
theorem masonry_spec (rowHeight rowGap hA hB : ℚ) (items : List MasonryItem)
    (hpos : 0 < rowHeight + rowGap) (hlt : hA < hB) :
    rowSpan rowHeight rowGap hA ≤ rowSpan rowHeight rowGap hB
    ∧ 1 ≤ rowSpan rowHeight rowGap hA
    ∧ resizeMasonryGrid rowHeight rowGap (resizeMasonryGrid rowHeight rowGap items)
        = resizeMasonryGrid rowHeight rowGap items := by
  refine ⟨?_, le_max_left 1 _, ?_⟩
  · unfold rowSpan
    have hdiv : (hA + rowGap) / (rowHeight + rowGap)
        ≤ (hB + rowGap) / (rowHeight + rowGap) :=
      div_le_div_of_nonneg_right (by linarith) (le_of_lt hpos)
    exact max_le_max (le_refl 1) (Int.ceil_le_ceil hdiv)
  · induction items with
    | nil => rfl
    | cons a as ih =>
      cases a with
      | mk h s =>
        simp only [resizeMasonryGrid, List.map_cons] at ih ⊢
        exact congrArg (List.cons { height := h, span := rowSpan rowHeight rowGap h }) ih

/-- Witness for C9 at row height 10, gap 2, heights 5 and 20, empty grid. -/
theorem masonry_spec_witness :
    (0 : ℚ) < 10 + 2 ∧ (5 : ℚ) < 20
    ∧ (rowSpan 10 2 5 ≤ rowSpan 10 2 20
      ∧ 1 ≤ rowSpan 10 2 5
      ∧ resizeMasonryGrid 10 2 (resizeMasonryGrid 10 2 [])
          = resizeMasonryGrid 10 2 []) :=
  ⟨by norm_num, by norm_num, masonry_spec 10 2 5 20 [] (by norm_num) (by norm_num)⟩

/-- C10: on every client-side failure path of comment submission the rollback
decrement of the displayed comment counter is clamped at zero, and for any
nonnegative pre-increment value the rollback after the optimistic increment
restores exactly that value; the displayed count is never negative. -/
theorem comment_count_rollback_spec (c c0 : Int) (h : 0 ≤ c0) :
    0 ≤ commentCountRollback c
    ∧ commentCountRollback (commentCountIncrement c0) = c0 := by
  constructor
  · exact le_max_left 0 _
  · unfold commentCountRollback commentCountIncrement jsOrInt
    by_cases h0 : c0 = 0
    · subst h0; norm_num
    · rw [if_neg h0]
      have h1 : c0 + 1 ≠ 0 := by omega
      rw [if_neg h1, add_sub_cancel_right]
      exact max_eq_right h

/-- Witness for C10 at displayed counter 5 and pre-increment value 3. -/
theorem comment_count_rollback_spec_witness :
    (0 : Int) ≤ 3
    ∧ (0 ≤ commentCountRollback 5
      ∧ commentCountRollback (commentCountIncrement 3) = 3) :=
  ⟨by decide, comment_count_rollback_spec 5 3 (by decide)⟩

/-- C6: while a like request for a post is in flight, a second click for the
same post is dropped: the state is unchanged, so no second network request is
issued, no UI change happens and no message is shown. -/
theorem pending_click_dropped (ui0 : LikeUI) (evs : List LikeEvent)
    (h : (likeRun ui0 evs).inFlight = true) :
    likeStep (likeRun ui0 evs) .click = likeRun ui0 evs
    ∧ (likeStep (likeRun ui0 evs) .click).requests = (likeRun ui0 evs).requests
    ∧ (likeStep (likeRun ui0 evs) .click).ui = (likeRun ui0 evs).ui
    ∧ (likeStep (likeRun ui0 evs) .click).toasts = (likeRun ui0 evs).toasts := by
  have hd := likeRun_guard ui0 evs h
  have he : likeStep (likeRun ui0 evs) .click = likeRun ui0 evs := by
    simp [likeStep, hd]
  exact ⟨he, by rw [he], by rw [he], by rw [he]⟩

/-- Witness for C6: after one click from page load a request is in flight,
and a second click changes nothing. -/
theorem pending_click_dropped_witness :
    (likeRun ⟨false, 0⟩ [LikeEvent.click]).inFlight = true
    ∧ (likeStep (likeRun ⟨false, 0⟩ [LikeEvent.click]) .click
          = likeRun ⟨false, 0⟩ [LikeEvent.click]
      ∧ (likeStep (likeRun ⟨false, 0⟩ [LikeEvent.click]) .click).requests
          = (likeRun ⟨false, 0⟩ [LikeEvent.click]).requests
      ∧ (likeStep (likeRun ⟨false, 0⟩ [LikeEvent.click]) .click).ui
          = (likeRun ⟨false, 0⟩ [LikeEvent.click]).ui
      ∧ (likeStep (likeRun ⟨false, 0⟩ [LikeEvent.click]) .click).toasts
          = (likeRun ⟨false, 0⟩ [LikeEvent.click]).toasts) :=
  ⟨by decide, pending_click_dropped ⟨false, 0⟩ [LikeEvent.click] (by decide)⟩

/-- C7: a self-follow is rejected with 400 and the error body, leaving both
arrays unchanged; a follow toggle between distinct users leaves the pair
symmetric (the requester is in the target's followers exactly when the target
is in the requester's following), preserves freedom from duplicates, and
responds with the new following flag and the target's followers count. -/
theorem follow_route_spec (mu tu : String) (mid tid : Nat) (db : FollowState)
    (h1 : db.targetFollowers.Nodup) (h2 : db.userFollowing.Nodup) :
    (mu = tu → followRoute mu tu mid tid db
        = (db, ⟨400, .error "Cannot follow yourself"⟩))
    ∧ (mu ≠ tu →
        (mid ∈ (followRoute mu tu mid tid db).1.targetFollowers
          ↔ tid ∈ (followRoute mu tu mid tid db).1.userFollowing)
        ∧ (followRoute mu tu mid tid db).1.targetFollowers.Nodup
        ∧ (followRoute mu tu mid tid db).1.userFollowing.Nodup
        ∧ (followRoute mu tu mid tid db).2
            = ⟨200, .ok (decide (mid ∉ db.targetFollowers))
                (followRoute mu tu mid tid db).1.targetFollowers.length⟩) := by
  constructor
  · intro h
    simp [followRoute, h]
  · intro hne
    by_cases hmem : mid ∈ db.targetFollowers
    · have hfst : (followRoute mu tu mid tid db).1
          = { targetFollowers := pull db.targetFollowers mid
              userFollowing := pull db.userFollowing tid } := by
        simp [followRoute, hne, hmem]
      refine ⟨?_, ?_, ?_, ?_⟩
      · rw [hfst]
        simp only []
        exact iff_of_false (not_mem_pull_self _ _) (not_mem_pull_self _ _)
      · rw [hfst]; exact h1.filter _
      · rw [hfst]; exact h2.filter _
      · rw [hfst]
        simp [followRoute, hne, hmem]
    · have hfst : (followRoute mu tu mid tid db).1
          = { targetFollowers := addToSet db.targetFollowers mid
              userFollowing := addToSet db.userFollowing tid } := by
        simp [followRoute, hne, hmem]
      refine ⟨?_, ?_, ?_, ?_⟩
      · rw [hfst]
        exact iff_of_true (mem_addToSet_self _ _) (mem_addToSet_self _ _)
      · rw [hfst]; exact addToSet_nodup _ _ h1
      · rw [hfst]; exact addToSet_nodup _ _ h2
      · rw [hfst]
        simp [followRoute, hne, hmem]

/-- Witness for C7: user 1 follows user 2 (distinct names), starting from
empty arrays. -/
theorem follow_route_spec_witness :
    (([] : List Nat).Nodup ∧ ([] : List Nat).Nodup)
    ∧ (("a" = "b" → followRoute "a" "b" 1 2 ⟨[], []⟩
          = (⟨[], []⟩, ⟨400, .error "Cannot follow yourself"⟩))
      ∧ ("a" ≠ "b" →
          (1 ∈ (followRoute "a" "b" 1 2 ⟨[], []⟩).1.targetFollowers
            ↔ 2 ∈ (followRoute "a" "b" 1 2 ⟨[], []⟩).1.userFollowing)
          ∧ (followRoute "a" "b" 1 2 ⟨[], []⟩).1.targetFollowers.Nodup
          ∧ (followRoute "a" "b" 1 2 ⟨[], []⟩).1.userFollowing.Nodup
          ∧ (followRoute "a" "b" 1 2 ⟨[], []⟩).2
              = ⟨200, .ok (decide (1 ∉ (⟨[], []⟩ : FollowState).targetFollowers))
                  (followRoute "a" "b" 1 2 ⟨[], []⟩).1.targetFollowers.length⟩)) :=
  ⟨⟨List.nodup_nil, List.nodup_nil⟩,
    follow_route_spec "a" "b" 1 2 ⟨[], []⟩ List.nodup_nil List.nodup_nil⟩

/-- C8 counterexample: the `/upload` mutation endpoint does not follow the
JSON envelope: its no-file failure is a plain-text 400 body, not a JSON
error object, and its success path is a redirect, not a JSON success
envelope. -/
theorem upload_envelope_cex :
    uploadEndpointResp .noFile = ⟨400, .plainText "No file provided"⟩
    ∧ isJsonEnvelope (uploadEndpointResp .noFile).body = false
    ∧ isJsonEnvelope (uploadEndpointResp .created).body = false := by
  decide

/-- C8 (amended): the JSON-API mutation endpoints (like, comment, follow)
respond on every path with a JSON envelope, success bodies exactly under
status 200 and error bodies under 400/401/404/500 as appropriate; the
form-style `/upload` endpoint instead redirects on success and sends a
plain-text 400 when no file is provided. -/
theorem mutation_envelope_spec :
    (∀ o : LikeOutcome, isJsonEnvelope (likeEndpointResp o).body = true
      ∧ ((likeEndpointResp o).body = .jsonSuccess ↔ (likeEndpointResp o).status = 200))
    ∧ (∀ o : CommentOutcome, isJsonEnvelope (commentEndpointResp o).body = true
      ∧ ((commentEndpointResp o).body = .jsonSuccess
          ↔ (commentEndpointResp o).status = 200))
    ∧ (∀ o : FollowOutcome, isJsonEnvelope (followEndpointResp o).body = true
      ∧ ((followEndpointResp o).body = .jsonSuccess
          ↔ (followEndpointResp o).status = 200))
    ∧ likeEndpointResp .noAuth = ⟨401, .jsonError "Not authenticated"⟩
    ∧ likeEndpointResp .postMissing = ⟨404, .jsonError "Post not found"⟩
    ∧ likeEndpointResp .serverFailed = ⟨500, .jsonError "Server error"⟩
    ∧ commentEndpointResp .emptyText = ⟨400, .jsonError "Comment text required"⟩
    ∧ followEndpointResp .selfFollow = ⟨400, .jsonError "Cannot follow yourself"⟩
    ∧ followEndpointResp .userMissing = ⟨404, .jsonError "User not found"⟩
    ∧ uploadEndpointResp .created = ⟨302, .redirect "/profile"⟩ := by
  decide

end Pixivo
